import Mathlib

/-!
Verification of the FarmerPay bank-profitability engine (src/app.py).

The numeric model uses `ℚ` for all currency and percentage values, so every
formula in the source is embedded exactly (the source's decimal constants such
as 14.16 are exact rationals).  Bank categories are an inductive type mirroring
the three-way string dispatch of the source.
-/

namespace FarmerPay

/-- Bank category, mirroring the three-way dispatch on the sidebar string
selection of src/app.py. -/
inductive BankType where
  | scheduledCommercial
  | regionalRural
  | cooperative
deriving DecidableEq, Repr

/-- Record returned by get_bank_parameters: the dictionary of
collection_efficiency, recovery_rate, operational_costs, other_revenue and
effective_npa. -/
structure BankParams where
  collection_efficiency : ℚ
  recovery_rate : ℚ
  operational_costs : ℚ
  other_revenue : ℚ
  effective_npa : ℚ
deriving DecidableEq, Repr

/-- Embedding of get_bank_parameters (src/app.py lines 223-307).  Each branch
copies the source's arithmetic verbatim; collection efficiency and recovery
rate are divided by 100 on return, and effective_npa is the reduced figure
when with_farmerpay and the raw npa_rate otherwise, exactly as in the
returned dictionary. -/
def get_bank_parameters (bank_type : BankType) (npa_rate : ℚ)
    (with_farmerpay : Bool) : BankParams :=
  match bank_type, with_farmerpay with
  | .scheduledCommercial, true =>
      let effective_npa := max 0 (npa_rate - 2.0)
      let collection_efficiency := max 75 (90 - (effective_npa - 12.16) * 1.5)
      let recovery_rate := max 85 (95 - (effective_npa - 12.16) * 1.2)
      { collection_efficiency := collection_efficiency / 100
        recovery_rate := recovery_rate / 100
        operational_costs := 1105
        other_revenue := 300
        effective_npa := effective_npa }
  | .scheduledCommercial, false =>
      let collection_efficiency := max 60 (80 - (npa_rate - 14.16) * 2)
      let recovery_rate := max 70 (85 - (npa_rate - 14.16) * 1.5)
      { collection_efficiency := collection_efficiency / 100
        recovery_rate := recovery_rate / 100
        operational_costs := 1300
        other_revenue := 248
        effective_npa := npa_rate }
  | .regionalRural, true =>
      let effective_npa := max 0 (npa_rate - 1.5)
      let collection_efficiency := max 80 (93 - (effective_npa - 5.6) * 1.5)
      let recovery_rate := max 88 (98 - (effective_npa - 5.6) * 1.2)
      { collection_efficiency := collection_efficiency / 100
        recovery_rate := recovery_rate / 100
        operational_costs := 900
        other_revenue := 250
        effective_npa := effective_npa }
  | .regionalRural, false =>
      let collection_efficiency := max 70 (85 - (npa_rate - 7.1) * 2)
      let recovery_rate := max 75 (90 - (npa_rate - 7.1) * 1.5)
      { collection_efficiency := collection_efficiency / 100
        recovery_rate := recovery_rate / 100
        operational_costs := 1000
        other_revenue := 198
        effective_npa := npa_rate }
  | .cooperative, true =>
      let effective_npa := max 0 (npa_rate - 1.0)
      let collection_efficiency := max 77 (92 - (effective_npa - 5.5) * 1.5)
      let recovery_rate := min 100 (max 88 (100 - (effective_npa - 5.5) * 1.2))
      { collection_efficiency := collection_efficiency / 100
        recovery_rate := recovery_rate / 100
        operational_costs := 688
        other_revenue := 200
        effective_npa := effective_npa }
  | .cooperative, false =>
      let collection_efficiency := max 72 (87 - (npa_rate - 6.5) * 2)
      let recovery_rate := max 73 (88 - (npa_rate - 6.5) * 1.5)
      { collection_efficiency := collection_efficiency / 100
        recovery_rate := recovery_rate / 100
        operational_costs := 860
        other_revenue := 148
        effective_npa := npa_rate }

/-- Record returned by calculate_metrics (src/app.py lines 310-356).  The
two trailing percentage fields of the source dictionary (collection
efficiency and recovery rate re-scaled by 100) are display copies and are
kept here as well. -/
structure Metrics where
  interest_income : ℚ
  govt_subvention : ℚ
  other_revenue : ℚ
  total_revenue : ℚ
  operational_costs : ℚ
  npa_provisioning : ℚ
  farmerpay_fee : ℚ
  total_costs : ℚ
  net_profit : ℚ
  collection_efficiency_pct : ℚ
  recovery_rate_pct : ℚ
  effective_npa : ℚ
deriving DecidableEq, Repr

/-- Embedding of calculate_metrics (src/app.py lines 310-356).  The interest
rate and the NPA rate are given in percent, as in the source, hence the
divisions by 100. -/
def calculate_metrics (loan_amount interest_rate npa_rate : ℚ)
    (bank_params : BankParams) (farmerpay_fee : ℚ) : Metrics :=
  let effective_npa := bank_params.effective_npa
  let interest_income :=
    (interest_rate / 100) * loan_amount * bank_params.collection_efficiency
  let govt_subvention := 0.015 * loan_amount * bank_params.recovery_rate
  let other_revenue := bank_params.other_revenue
  let total_revenue := interest_income + govt_subvention + other_revenue
  let operational_costs := bank_params.operational_costs
  let npa_provisioning := (effective_npa / 100) * 0.25 * loan_amount
  let farmerpay_cost := farmerpay_fee
  let total_costs := operational_costs + npa_provisioning + farmerpay_cost
  let net_profit := total_revenue - total_costs
  { interest_income := interest_income
    govt_subvention := govt_subvention
    other_revenue := other_revenue
    total_revenue := total_revenue
    operational_costs := operational_costs
    npa_provisioning := npa_provisioning
    farmerpay_fee := farmerpay_cost
    total_costs := total_costs
    net_profit := net_profit
    collection_efficiency_pct := bank_params.collection_efficiency * 100
    recovery_rate_pct := bank_params.recovery_rate * 100
    effective_npa := effective_npa }

/-- Platform-side financial record: annual revenue, direct costs, gross
profit, intermediary payment and net profit of the FarmerPay platform. -/
structure PlatformFinancials where
  total_revenue : ℚ
  total_direct_cost : ℚ
  gross_profit : ℚ
  intermediary_payment : ℚ
  net_profit : ℚ
deriving DecidableEq, Repr

/-- Modelled from the spec: the general Platform Metrics Calculator contract
calculate_platform_financials(farmers, revenue_per_farmer, cost_per_farmer,
partnership_rate).  The source (src/app.py lines 630-645 and 988-993)
inlines exactly this computation with the partnership rate fixed at 0.30;
`farmerpay_financials` below is that inline version and is proved to
coincide with this function at rate 0.30. -/
def calculate_platform_financials
    (num_farmers revenue_per_farmer cost_per_farmer partnership_rate : ℚ) :
    PlatformFinancials :=
  let total_revenue := num_farmers * revenue_per_farmer
  let total_direct_cost := num_farmers * cost_per_farmer
  let gross_profit := total_revenue - total_direct_cost
  let intermediary_payment :=
    if gross_profit > 0 then gross_profit * partnership_rate else 0
  { total_revenue := total_revenue
    total_direct_cost := total_direct_cost
    gross_profit := gross_profit
    intermediary_payment := intermediary_payment
    net_profit := gross_profit - intermediary_payment }

/-- Embedding of the platform profit block of src/app.py lines 630-645 (and
the identical per-scale computation of lines 988-993): revenue and direct
costs scale with the farmer count, the intermediary is paid 30% of gross
profit only when gross profit is positive, and net profit is what remains. -/
def farmerpay_financials
    (num_farmers total_revenue_per_farmer total_direct_cost_per_farmer : ℚ) :
    PlatformFinancials :=
  let farmerpay_annual_revenue := num_farmers * total_revenue_per_farmer
  let farmerpay_direct_costs := num_farmers * total_direct_cost_per_farmer
  let farmerpay_gross_profit := farmerpay_annual_revenue - farmerpay_direct_costs
  let intermediary_payment :=
    if farmerpay_gross_profit > 0 then farmerpay_gross_profit * 0.30 else 0
  { total_revenue := farmerpay_annual_revenue
    total_direct_cost := farmerpay_direct_costs
    gross_profit := farmerpay_gross_profit
    intermediary_payment := intermediary_payment
    net_profit := farmerpay_gross_profit - intermediary_payment }

/-- Embedding of the swept fee grid of src/app.py lines 839-844:
np.arange(600, 1001, 50) for Scheduled Commercial, np.arange(450, 751, 50)
for Regional Rural, np.arange(350, 651, 50) for Cooperative banks. -/
def price_range (bank_type : BankType) : List ℚ :=
  match bank_type with
  | .scheduledCommercial => [600, 650, 700, 750, 800, 850, 900, 950, 1000]
  | .regionalRural => [450, 500, 550, 600, 650, 700, 750]
  | .cooperative => [350, 400, 450, 500, 550, 600, 650]

/-- Net value addition of a candidate fee (src/app.py line 849): the assisted
net profit at that fee minus the baseline (unassisted, fee-free) net
profit. -/
def net_value_addition (loan_amount interest_rate npa_rate : ℚ)
    (bank_params_fp : BankParams) (baseline_net_profit fee : ℚ) : ℚ :=
  (calculate_metrics loan_amount interest_rate npa_rate bank_params_fp
    fee).net_profit - baseline_net_profit

/-- First element attaining the maximum of nva over vs, starting from v:
the fold underlying the pandas idxmax call of src/app.py line 865 (idxmax
returns the first row attaining the maximum). -/
def first_argmax (nva : ℚ → ℚ) (v : ℚ) (vs : List ℚ) : ℚ :=
  vs.foldl (fun best f => if nva best < nva f then f else best) v

/-- Embedding of the optimal-fee selection of src/app.py lines 863-867:
filter the swept fees to those with strictly positive net value addition;
if none remain, no recommendation is produced, otherwise the first fee
attaining the maximal net value addition is recommended. -/
def select_optimal_fee (fees : List ℚ) (nva : ℚ → ℚ) : Option ℚ :=
  match fees.filter (fun f => decide (0 < nva f)) with
  | [] => none
  | v :: vs => some (first_argmax nva v vs)

/-- Modelled from the spec: the Growth Projector farmer-count recurrence of
spec section 4.5 (no growth-projection code is present in src/app.py).
Year 0 is the base count verbatim; each later year floors the previous
count scaled by (1 + growth_rate) * (1 - churn_rate). -/
def project_farmers (base_farmers : ℕ) (growth_rate churn_rate : ℚ) :
    ℕ → ℕ
  | 0 => base_farmers
  | y + 1 =>
      Nat.floor ((project_farmers base_farmers growth_rate churn_rate y : ℚ)
        * (1 + growth_rate) * (1 - churn_rate))

/-- Modelled from the spec: the full projected farmer-count series, one
entry per year from 0 to the horizon inclusive. -/
def farmer_series (base_farmers : ℕ) (growth_rate churn_rate : ℚ)
    (horizon : ℕ) : List ℕ :=
  (List.range (horizon + 1)).map (project_farmers base_farmers growth_rate churn_rate)

/-! Spec-side constant tables for the Bank Parameter Resolver, written from
the spec's description (section 4.1): a per-category NPA reduction applied
when assisted, and per-category (per assistance variant) baseline, floor and
reference-NPA constants for collection efficiency, with a slope of 2.0
unassisted and 1.5 assisted. -/

/-- NPA reduction in percentage points applied by FarmerPay assistance
(spec: Scheduled-Commercial 2.0pp, Regional-Rural 1.5pp, Cooperative
1.0pp). -/
def npa_reduction : BankType → ℚ
  | .scheduledCommercial => 2.0
  | .regionalRural => 1.5
  | .cooperative => 1.0

/-- Baseline collection efficiency (percent) per category and assistance
state. -/
def collection_baseline : BankType → Bool → ℚ
  | .scheduledCommercial, true => 90
  | .scheduledCommercial, false => 80
  | .regionalRural, true => 93
  | .regionalRural, false => 85
  | .cooperative, true => 92
  | .cooperative, false => 87

/-- Collection-efficiency floor (percent) per category and assistance
state. -/
def collection_floor : BankType → Bool → ℚ
  | .scheduledCommercial, true => 75
  | .scheduledCommercial, false => 60
  | .regionalRural, true => 80
  | .regionalRural, false => 70
  | .cooperative, true => 77
  | .cooperative, false => 72

/-- Reference NPA (percent) per category and assistance state, the point at
which collection efficiency equals its baseline. -/
def reference_npa : BankType → Bool → ℚ
  | .scheduledCommercial, true => 12.16
  | .scheduledCommercial, false => 14.16
  | .regionalRural, true => 5.6
  | .regionalRural, false => 7.1
  | .cooperative, true => 5.5
  | .cooperative, false => 6.5

/-- Degradation slope of collection efficiency per percentage point of NPA
above the reference: 2.0 unassisted, 1.5 assisted. -/
def degradation_slope : Bool → ℚ
  | true => 1.5
  | false => 2

/-- Spec-side effective NPA: max(0, npa_rate - category_specific_reduction)
when assisted, npa_rate unchanged otherwise. -/
def spec_effective_npa (bank_type : BankType) (npa_rate : ℚ) :
    Bool → ℚ
  | true => max 0 (npa_rate - npa_reduction bank_type)
  | false => npa_rate

/-- Spec-side collection efficiency (percent):
max(floor_pct, baseline - (effective_npa - reference_npa) * slope). -/
def spec_collection_efficiency (bank_type : BankType) (npa_rate : ℚ)
    (assisted : Bool) : ℚ :=
  max (collection_floor bank_type assisted)
    (collection_baseline bank_type assisted -
      (spec_effective_npa bank_type npa_rate assisted -
        reference_npa bank_type assisted) * degradation_slope assisted)

/-- Claim C1: for every bank category, every NPA rate and both assistance
states, get_bank_parameters computes effective NPA as max(0, npa_rate -
reduction) when assisted (reduction 2.0pp Scheduled-Commercial, 1.5pp
Regional-Rural, 1.0pp Cooperative) and npa_rate unchanged when unassisted,
and computes collection efficiency as max(floor_pct, baseline -
(effective_npa - reference_npa) * slope) with slope 2.0 unassisted and 1.5
assisted, using the per-category floor and reference constants (the
collection efficiency is returned as a fraction, hence the division by
100). -/
theorem bank_parameters_match_spec_formulas (bank_type : BankType)
    (npa_rate : ℚ) (assisted : Bool) :
    (get_bank_parameters bank_type npa_rate assisted).effective_npa =
      spec_effective_npa bank_type npa_rate assisted ∧
    (get_bank_parameters bank_type npa_rate assisted).collection_efficiency =
      spec_collection_efficiency bank_type npa_rate assisted / 100 := by
  cases bank_type <;> cases assisted <;> exact ⟨rfl, rfl⟩

/-- Claim C2: calculate_metrics returns interest income = (interest_rate /
100) × principal × collection_efficiency (the rate is supplied in percent),
government subvention = 0.015 × principal × recovery_rate, NPA provisioning
= (effective_npa / 100) × 0.25 × principal, and totals satisfying
total_revenue = interest_income + govt_subvention + other_revenue,
total_cost = operating_cost + npa_provisioning + platform_fee, and
net_profit = total_revenue - total_cost, exactly. -/
theorem calculate_metrics_formulas (loan_amount interest_rate npa_rate : ℚ)
    (bank_params : BankParams) (farmerpay_fee : ℚ) :
    (calculate_metrics loan_amount interest_rate npa_rate bank_params
        farmerpay_fee).interest_income =
      (interest_rate / 100) * loan_amount * bank_params.collection_efficiency ∧
    (calculate_metrics loan_amount interest_rate npa_rate bank_params
        farmerpay_fee).govt_subvention =
      0.015 * loan_amount * bank_params.recovery_rate ∧
    (calculate_metrics loan_amount interest_rate npa_rate bank_params
        farmerpay_fee).npa_provisioning =
      (bank_params.effective_npa / 100) * 0.25 * loan_amount ∧
    (calculate_metrics loan_amount interest_rate npa_rate bank_params
        farmerpay_fee).total_revenue =
      (calculate_metrics loan_amount interest_rate npa_rate bank_params
        farmerpay_fee).interest_income +
      (calculate_metrics loan_amount interest_rate npa_rate bank_params
        farmerpay_fee).govt_subvention +
      (calculate_metrics loan_amount interest_rate npa_rate bank_params
        farmerpay_fee).other_revenue ∧
    (calculate_metrics loan_amount interest_rate npa_rate bank_params
        farmerpay_fee).total_costs =
      (calculate_metrics loan_amount interest_rate npa_rate bank_params
        farmerpay_fee).operational_costs +
      (calculate_metrics loan_amount interest_rate npa_rate bank_params
        farmerpay_fee).npa_provisioning +
      (calculate_metrics loan_amount interest_rate npa_rate bank_params
        farmerpay_fee).farmerpay_fee ∧
    (calculate_metrics loan_amount interest_rate npa_rate bank_params
        farmerpay_fee).net_profit =
      (calculate_metrics loan_amount interest_rate npa_rate bank_params
        farmerpay_fee).total_revenue -
      (calculate_metrics loan_amount interest_rate npa_rate bank_params
        farmerpay_fee).total_costs :=
  ⟨rfl, rfl, rfl, rfl, rfl, rfl⟩

/-- Claim C3: for every farmer count, revenue per farmer, cost per farmer
and partnership rate, the platform metrics computation yields gross profit
= total revenue - total direct cost, intermediary payment = gross profit ×
partnership rate when gross profit is positive and exactly 0 whenever gross
profit ≤ 0, and net profit = gross profit - intermediary payment; moreover
the inline source computation (partnership rate 0.30) coincides with the
general calculator at rate 0.30. -/
theorem platform_financials_invariants :
    (∀ num_farmers revenue_per_farmer cost_per_farmer partnership_rate : ℚ,
      (calculate_platform_financials num_farmers revenue_per_farmer
          cost_per_farmer partnership_rate).gross_profit =
        (calculate_platform_financials num_farmers revenue_per_farmer
          cost_per_farmer partnership_rate).total_revenue -
        (calculate_platform_financials num_farmers revenue_per_farmer
          cost_per_farmer partnership_rate).total_direct_cost ∧
      (0 < (calculate_platform_financials num_farmers revenue_per_farmer
          cost_per_farmer partnership_rate).gross_profit →
        (calculate_platform_financials num_farmers revenue_per_farmer
          cost_per_farmer partnership_rate).intermediary_payment =
        (calculate_platform_financials num_farmers revenue_per_farmer
          cost_per_farmer partnership_rate).gross_profit * partnership_rate) ∧
      ((calculate_platform_financials num_farmers revenue_per_farmer
          cost_per_farmer partnership_rate).gross_profit ≤ 0 →
        (calculate_platform_financials num_farmers revenue_per_farmer
          cost_per_farmer partnership_rate).intermediary_payment = 0) ∧
      (calculate_platform_financials num_farmers revenue_per_farmer
          cost_per_farmer partnership_rate).net_profit =
        (calculate_platform_financials num_farmers revenue_per_farmer
          cost_per_farmer partnership_rate).gross_profit -
        (calculate_platform_financials num_farmers revenue_per_farmer
          cost_per_farmer partnership_rate).intermediary_payment) ∧
    (∀ num_farmers revenue_per_farmer cost_per_farmer : ℚ,
      farmerpay_financials num_farmers revenue_per_farmer cost_per_farmer =
        calculate_platform_financials num_farmers revenue_per_farmer
          cost_per_farmer 0.30) := by
  constructor
  · intro n r c p
    refine ⟨rfl, ?_, ?_, rfl⟩
    · intro h
      simp only [calculate_platform_financials]
      rw [if_pos]
      exact h
    · intro h
      simp only [calculate_platform_financials]
      rw [if_neg]
      exact not_lt.mpr h
  · intro n r c
    rfl

/-- Claim C3 witness: both branches of the intermediary-payment guard
exercised at concrete inputs through the claim theorem. -/
theorem platform_financials_invariants_witness :
    (calculate_platform_financials 10000 700 500 0.30).intermediary_payment =
      (calculate_platform_financials 10000 700 500 0.30).gross_profit * 0.30 ∧
    (calculate_platform_financials 100 400 500 0.30).intermediary_payment = 0 :=
  ⟨(platform_financials_invariants.1 10000 700 500 0.30).2.1 (by norm_num [calculate_platform_financials]),
   (platform_financials_invariants.1 100 400 500 0.30).2.2.1 (by norm_num [calculate_platform_financials])⟩

/-- Claim C8: at principal 120000, interest rate 7, NPA rate 14.16,
Scheduled-Commercial: the unassisted resolver yields collection efficiency
0.80, recovery rate 0.85, operating cost 1300 and other revenue 248; the
assisted resolver yields effective NPA 12.16, collection efficiency 0.90,
recovery rate 0.95, operating cost 1105 and other revenue 300. -/
theorem scb_reference_scenario :
    (get_bank_parameters .scheduledCommercial 14.16 false).collection_efficiency = 0.80 ∧
    (get_bank_parameters .scheduledCommercial 14.16 false).recovery_rate = 0.85 ∧
    (get_bank_parameters .scheduledCommercial 14.16 false).operational_costs = 1300 ∧
    (get_bank_parameters .scheduledCommercial 14.16 false).other_revenue = 248 ∧
    (get_bank_parameters .scheduledCommercial 14.16 true).effective_npa = 12.16 ∧
    (get_bank_parameters .scheduledCommercial 14.16 true).collection_efficiency = 0.90 ∧
    (get_bank_parameters .scheduledCommercial 14.16 true).recovery_rate = 0.95 ∧
    (get_bank_parameters .scheduledCommercial 14.16 true).operational_costs = 1105 ∧
    (get_bank_parameters .scheduledCommercial 14.16 true).other_revenue = 300 := by
  refine ⟨?_, ?_, rfl, rfl, ?_, ?_, ?_, rfl, rfl⟩ <;>
    norm_num [get_bank_parameters]

/-- Claim C4 counterexample: at NPA rate 0 (inside the valid range 0-30)
for Scheduled-Commercial banks, the assisted collection efficiency
(108.24%) is strictly below the unassisted one (108.32%), refuting the
claim that assisted collection efficiency is always ≥ unassisted at equal
NPA. -/
theorem assisted_collection_below_unassisted_at_zero_npa :
    (get_bank_parameters .scheduledCommercial 0 true).collection_efficiency <
      (get_bank_parameters .scheduledCommercial 0 false).collection_efficiency := by
  norm_num [get_bank_parameters]

/-- Claim C4 amended: for every bank category and NPA rate in [0, 30], the
assisted recovery rate is ≥ the unassisted one; the assisted collection
efficiency is ≥ the unassisted one for Regional-Rural and Cooperative banks
on the whole range, and for Scheduled-Commercial banks whenever the NPA
rate is at least 0.04. -/
theorem assisted_improvement_amended (bank_type : BankType) (npa_rate : ℚ)
    (h0 : 0 ≤ npa_rate) (h30 : npa_rate ≤ 30) :
    (get_bank_parameters bank_type npa_rate false).recovery_rate ≤
      (get_bank_parameters bank_type npa_rate true).recovery_rate ∧
    ((bank_type = .scheduledCommercial → (0.04 : ℚ) ≤ npa_rate) →
      (get_bank_parameters bank_type npa_rate false).collection_efficiency ≤
        (get_bank_parameters bank_type npa_rate true).collection_efficiency) := by
  cases bank_type
  case scheduledCommercial =>
    simp only [get_bank_parameters]
    constructor
    · rcases le_total npa_rate 2 with h | h
      · rw [max_eq_left (by linarith : npa_rate - 2.0 ≤ 0)]
        rw [div_le_div_iff_of_pos_right (by norm_num : (0:ℚ) < 100)]
        exact max_le (le_trans (by norm_num) (le_max_left _ _))
          (le_max_of_le_right (by linarith))
      · rw [max_eq_right (by linarith : (0:ℚ) ≤ npa_rate - 2.0)]
        rw [div_le_div_iff_of_pos_right (by norm_num : (0:ℚ) < 100)]
        exact max_le (le_trans (by norm_num) (le_max_left _ _))
          (le_max_of_le_right (by linarith))
    · intro hsc
      have h004 : (0.04 : ℚ) ≤ npa_rate := hsc trivial
      rcases le_total npa_rate 2 with h | h
      · rw [max_eq_left (by linarith : npa_rate - 2.0 ≤ 0)]
        rw [div_le_div_iff_of_pos_right (by norm_num : (0:ℚ) < 100)]
        exact max_le (le_trans (by norm_num) (le_max_left _ _))
          (le_max_of_le_right (by linarith))
      · rw [max_eq_right (by linarith : (0:ℚ) ≤ npa_rate - 2.0)]
        rw [div_le_div_iff_of_pos_right (by norm_num : (0:ℚ) < 100)]
        exact max_le (le_trans (by norm_num) (le_max_left _ _))
          (le_max_of_le_right (by linarith))
  case regionalRural =>
    simp only [get_bank_parameters]
    refine ⟨?_, fun _ => ?_⟩
    · rcases le_total npa_rate 1.5 with h | h
      · rw [max_eq_left (by linarith : npa_rate - 1.5 ≤ 0)]
        rw [div_le_div_iff_of_pos_right (by norm_num : (0:ℚ) < 100)]
        exact max_le (le_trans (by norm_num) (le_max_left _ _))
          (le_max_of_le_right (by linarith))
      · rw [max_eq_right (by linarith : (0:ℚ) ≤ npa_rate - 1.5)]
        rw [div_le_div_iff_of_pos_right (by norm_num : (0:ℚ) < 100)]
        exact max_le (le_trans (by norm_num) (le_max_left _ _))
          (le_max_of_le_right (by linarith))
    · rcases le_total npa_rate 1.5 with h | h
      · rw [max_eq_left (by linarith : npa_rate - 1.5 ≤ 0)]
        rw [div_le_div_iff_of_pos_right (by norm_num : (0:ℚ) < 100)]
        exact max_le (le_trans (by norm_num) (le_max_left _ _))
          (le_max_of_le_right (by linarith))
      · rw [max_eq_right (by linarith : (0:ℚ) ≤ npa_rate - 1.5)]
        rw [div_le_div_iff_of_pos_right (by norm_num : (0:ℚ) < 100)]
        exact max_le (le_trans (by norm_num) (le_max_left _ _))
          (le_max_of_le_right (by linarith))
  case cooperative =>
    simp only [get_bank_parameters]
    refine ⟨?_, fun _ => ?_⟩
    · rcases le_total npa_rate 1 with h | h
      · rw [max_eq_left (by linarith : npa_rate - 1.0 ≤ 0)]
        rw [div_le_div_iff_of_pos_right (by norm_num : (0:ℚ) < 100)]
        refine le_min (max_le (by norm_num) (by linarith)) ?_
        exact max_le (le_trans (by norm_num) (le_max_left _ _))
          (le_max_of_le_right (by linarith))
      · rw [max_eq_right (by linarith : (0:ℚ) ≤ npa_rate - 1.0)]
        rw [div_le_div_iff_of_pos_right (by norm_num : (0:ℚ) < 100)]
        refine le_min (max_le (by norm_num) (by linarith)) ?_
        exact max_le (le_trans (by norm_num) (le_max_left _ _))
          (le_max_of_le_right (by linarith))
    · rcases le_total npa_rate 1 with h | h
      · rw [max_eq_left (by linarith : npa_rate - 1.0 ≤ 0)]
        rw [div_le_div_iff_of_pos_right (by norm_num : (0:ℚ) < 100)]
        exact max_le (le_trans (by norm_num) (le_max_left _ _))
          (le_max_of_le_right (by linarith))
      · rw [max_eq_right (by linarith : (0:ℚ) ≤ npa_rate - 1.0)]
        rw [div_le_div_iff_of_pos_right (by norm_num : (0:ℚ) < 100)]
        exact max_le (le_trans (by norm_num) (le_max_left _ _))
          (le_max_of_le_right (by linarith))

/-- Claim C4 amended witness: the amended comparison instantiated for
Scheduled-Commercial banks at NPA rate 5. -/
theorem assisted_improvement_amended_witness :
    (get_bank_parameters .scheduledCommercial 5 false).recovery_rate ≤
      (get_bank_parameters .scheduledCommercial 5 true).recovery_rate ∧
    (get_bank_parameters .scheduledCommercial 5 false).collection_efficiency ≤
      (get_bank_parameters .scheduledCommercial 5 true).collection_efficiency := by
  have h := assisted_improvement_amended .scheduledCommercial 5 (by norm_num) (by norm_num)
  exact ⟨h.1, h.2 (fun _ => by norm_num)⟩

/-- Claim C5 counterexample: at NPA rate 0 (inside the valid range) the
unassisted Scheduled-Commercial profile has collection efficiency 677/625 =
1.0832 and recovery rate 664/625 = 1.0624, both strictly above 1, refuting
the claimed [0, 1] bounds. -/
theorem bank_profile_exceeds_unit_bounds :
    1 < (get_bank_parameters .scheduledCommercial 0 false).collection_efficiency ∧
    1 < (get_bank_parameters .scheduledCommercial 0 false).recovery_rate := by
  constructor <;> norm_num [get_bank_parameters]

/-- Claim C5 amended: for every bank category, NPA rate in [0, 30] and both
assistance states, the returned profile has strictly positive collection
efficiency and recovery rate (each bounded below by its per-category floor,
but they may exceed 1 at low NPA rates), an effective NPA ≥ 0, and a
recovery rate ≤ 1 enforced by the explicit cap in the assisted Cooperative
case. -/
theorem bank_profile_bounds_amended (bank_type : BankType) (npa_rate : ℚ)
    (assisted : Bool) (h0 : 0 ≤ npa_rate) (h30 : npa_rate ≤ 30) :
    0 < (get_bank_parameters bank_type npa_rate assisted).collection_efficiency ∧
    0 < (get_bank_parameters bank_type npa_rate assisted).recovery_rate ∧
    0 ≤ (get_bank_parameters bank_type npa_rate assisted).effective_npa ∧
    (bank_type = .cooperative → assisted = true →
      (get_bank_parameters bank_type npa_rate assisted).recovery_rate ≤ 1) := by
  cases bank_type <;> cases assisted <;> simp only [get_bank_parameters]
  case scheduledCommercial.false =>
    refine ⟨div_pos (lt_max_of_lt_left (by norm_num)) (by norm_num),
      div_pos (lt_max_of_lt_left (by norm_num)) (by norm_num), h0, ?_⟩
    intro h
    exact nomatch h
  case scheduledCommercial.true =>
    refine ⟨div_pos (lt_max_of_lt_left (by norm_num)) (by norm_num),
      div_pos (lt_max_of_lt_left (by norm_num)) (by norm_num),
      le_max_left _ _, ?_⟩
    intro h
    exact nomatch h
  case regionalRural.false =>
    refine ⟨div_pos (lt_max_of_lt_left (by norm_num)) (by norm_num),
      div_pos (lt_max_of_lt_left (by norm_num)) (by norm_num), h0, ?_⟩
    intro h
    exact nomatch h
  case regionalRural.true =>
    refine ⟨div_pos (lt_max_of_lt_left (by norm_num)) (by norm_num),
      div_pos (lt_max_of_lt_left (by norm_num)) (by norm_num),
      le_max_left _ _, ?_⟩
    intro h
    exact nomatch h
  case cooperative.false =>
    refine ⟨div_pos (lt_max_of_lt_left (by norm_num)) (by norm_num),
      div_pos (lt_max_of_lt_left (by norm_num)) (by norm_num), h0, ?_⟩
    intro _ h
    exact nomatch h
  case cooperative.true =>
    refine ⟨div_pos (lt_max_of_lt_left (by norm_num)) (by norm_num),
      div_pos (lt_min (by norm_num) (lt_max_of_lt_left (by norm_num)))
        (by norm_num), le_max_left _ _, ?_⟩
    intro _ _
    rw [div_le_one (by norm_num : (0:ℚ) < 100)]
    exact min_le_left _ _

/-- Claim C5 amended witness: the bounds instantiated for the assisted
Cooperative profile at NPA rate 3, where the unit cap on the recovery rate
is active. -/
theorem bank_profile_bounds_amended_witness :
    0 < (get_bank_parameters .cooperative 3 true).collection_efficiency ∧
    0 < (get_bank_parameters .cooperative 3 true).recovery_rate ∧
    0 ≤ (get_bank_parameters .cooperative 3 true).effective_npa ∧
    (get_bank_parameters .cooperative 3 true).recovery_rate ≤ 1 := by
  have h := bank_profile_bounds_amended .cooperative 3 true (by norm_num) (by norm_num)
  exact ⟨h.1, h.2.1, h.2.2.1, h.2.2.2 rfl rfl⟩

/-- Each entry of the projected series, up to the horizon, is the
corresponding iterate of the year-over-year recurrence. -/
lemma farmer_series_getD (base_farmers : ℕ) (growth_rate churn_rate : ℚ)
    (horizon y : ℕ) (hy : y < horizon + 1) :
    (farmer_series base_farmers growth_rate churn_rate horizon).getD y 0 =
      project_farmers base_farmers growth_rate churn_rate y := by
  simp [farmer_series, List.getD_eq_getElem?_getD, List.getElem?_map,
    List.getElem?_range, hy]

/-- Claim C6: for every base count, growth rate > 0, churn rate in [0,1]
and horizon, the projected series has length horizon + 1, its year-0 entry
is the base count verbatim, each later entry is
floor(previous × (1 + growth_rate) × (1 - churn_rate)), and in the
10000-farmer scenario with growth 1/2 and churn 1/10 the year-1 and year-2
counts are 13500 and 18225. -/
theorem growth_projection_recurrence (base_farmers : ℕ)
    (growth_rate churn_rate : ℚ) (horizon : ℕ) (hg : 0 < growth_rate)
    (hc0 : 0 ≤ churn_rate) (hc1 : churn_rate ≤ 1) :
    (farmer_series base_farmers growth_rate churn_rate horizon).length =
      horizon + 1 ∧
    (farmer_series base_farmers growth_rate churn_rate horizon).getD 0 0 =
      base_farmers ∧
    (∀ y, y < horizon →
      (farmer_series base_farmers growth_rate churn_rate horizon).getD (y + 1) 0 =
        Nat.floor
          (((farmer_series base_farmers growth_rate churn_rate horizon).getD y 0 : ℚ)
            * (1 + growth_rate) * (1 - churn_rate))) ∧
    (farmer_series 10000 (1/2) (1/10) 3).getD 1 0 = 13500 ∧
    (farmer_series 10000 (1/2) (1/10) 3).getD 2 0 = 18225 := by
  have h1 : project_farmers 10000 (1/2) (1/10) 1 = 13500 := by
    show Nat.floor (((10000:ℕ):ℚ) * (1 + 1/2) * (1 - 1/10)) = 13500
    push_cast
    norm_num
  have h2 : project_farmers 10000 (1/2) (1/10) 2 = 18225 := by
    show Nat.floor (((project_farmers 10000 (1/2) (1/10) 1 : ℕ):ℚ)
      * (1 + 1/2) * (1 - 1/10)) = 18225
    rw [h1]
    push_cast
    norm_num
  refine ⟨by simp [farmer_series], ?_, ?_, ?_, ?_⟩
  · rw [farmer_series_getD _ _ _ _ 0 (Nat.succ_pos horizon)]
    rfl
  · intro y hy
    rw [farmer_series_getD _ _ _ _ y (by omega),
      farmer_series_getD _ _ _ _ (y + 1) (by omega)]
    rfl
  · rw [farmer_series_getD _ _ _ _ 1 (by norm_num)]
    exact h1
  · rw [farmer_series_getD _ _ _ _ 2 (by norm_num)]
    exact h2

/-- Claim C6 witness: the recurrence theorem instantiated at the spec's
scenario (base 10000, growth 1/2, churn 1/10, horizon 3). -/
theorem growth_projection_recurrence_witness :
    (farmer_series 10000 (1/2) (1/10) 3).length = 4 ∧
    (farmer_series 10000 (1/2) (1/10) 3).getD 0 0 = 10000 ∧
    (farmer_series 10000 (1/2) (1/10) 3).getD 1 0 = 13500 ∧
    (farmer_series 10000 (1/2) (1/10) 3).getD 2 0 = 18225 := by
  have h := growth_projection_recurrence 10000 (1/2) (1/10) 3
    (by norm_num) (by norm_num) (by norm_num)
  exact ⟨h.1, h.2.1, h.2.2.2.1, h.2.2.2.2⟩

/-- The fold computing the first maximizer returns an element of the
candidate list. -/
lemma first_argmax_mem (nva : ℚ → ℚ) (v : ℚ) (vs : List ℚ) :
    first_argmax nva v vs ∈ v :: vs := by
  induction vs generalizing v with
  | nil => simp [first_argmax]
  | cons f fs ih =>
      have h := ih (if nva v < nva f then f else v)
      simp only [first_argmax, List.foldl_cons] at h ⊢
      rcases List.mem_cons.mp h with h1 | h1
      · rw [h1]
        by_cases hc : nva v < nva f
        · simp [hc]
        · simp [hc]
      · exact List.mem_cons_of_mem _ (List.mem_cons_of_mem _ h1)

/-- Every candidate's value is at most the value of the fold's result. -/
lemma le_first_argmax (nva : ℚ → ℚ) (v : ℚ) (vs : List ℚ) :
    ∀ x ∈ v :: vs, nva x ≤ nva (first_argmax nva v vs) := by
  induction vs generalizing v with
  | nil =>
      intro x hx
      rcases List.mem_cons.mp hx with h1 | h1
      · rw [h1]; simp [first_argmax]
      · exact absurd h1 (List.not_mem_nil x)
  | cons f fs ih =>
      intro x hx
      have hw : nva v ≤ nva (if nva v < nva f then f else v) ∧
          nva f ≤ nva (if nva v < nva f then f else v) := by
        by_cases hc : nva v < nva f
        · rw [if_pos hc]; exact ⟨le_of_lt hc, le_refl _⟩
        · rw [if_neg hc]; exact ⟨le_refl _, le_of_not_lt hc⟩
      have hrec := ih (if nva v < nva f then f else v)
      simp only [first_argmax, List.foldl_cons] at hrec ⊢
      rcases List.mem_cons.mp hx with h1 | h1
      · rw [h1]
        exact le_trans hw.1 (hrec _ (List.mem_cons_self _ _))
      · rcases List.mem_cons.mp h1 with h2 | h2
        · rw [h2]
          exact le_trans hw.2 (hrec _ (List.mem_cons_self _ _))
        · exact hrec x (List.mem_cons_of_mem _ h2)

/-- When the starting value already dominates every candidate, the fold
keeps the starting value (the first maximizer). -/
lemma first_argmax_of_le (nva : ℚ → ℚ) (v : ℚ) (vs : List ℚ)
    (h : ∀ x ∈ vs, nva x ≤ nva v) : first_argmax nva v vs = v := by
  induction vs with
  | nil => rfl
  | cons f fs ih =>
      have hf : ¬ nva v < nva f := not_lt.mpr (h f (List.mem_cons_self _ _))
      simp only [first_argmax, List.foldl_cons, if_neg hf] at ih ⊢
      exact ih (fun x hx => h x (List.mem_cons_of_mem _ hx))

/-- When every fee's net value addition is non-positive, no fee is
recommended. -/
lemma select_optimal_fee_eq_none (fees : List ℚ) (nva : ℚ → ℚ)
    (h : ∀ f ∈ fees, nva f ≤ 0) : select_optimal_fee fees nva = none := by
  have hfil : fees.filter (fun f => decide (0 < nva f)) = [] := by
    rw [List.filter_eq_nil_iff]
    intro f hf
    simpa using not_lt.mpr (h f hf)
  simp [select_optimal_fee, hfil]

/-- A recommended fee is a swept fee with strictly positive net value
addition that dominates every other viable swept fee. -/
lemma select_optimal_fee_spec (fees : List ℚ) (nva : ℚ → ℚ) (fee : ℚ)
    (h : select_optimal_fee fees nva = some fee) :
    fee ∈ fees ∧ 0 < nva fee ∧
      ∀ g ∈ fees, 0 < nva g → nva g ≤ nva fee := by
  unfold select_optimal_fee at h
  cases hfil : fees.filter (fun f => decide (0 < nva f)) with
  | nil => rw [hfil] at h; exact nomatch h
  | cons v vs =>
      rw [hfil] at h
      have hfee : fee = first_argmax nva v vs := (Option.some_inj.mp h).symm
      have hmem : fee ∈ v :: vs := hfee ▸ first_argmax_mem nva v vs
      have hmemfil : fee ∈ fees.filter (fun f => decide (0 < nva f)) := by
        rw [hfil]; exact hmem
      refine ⟨List.mem_of_mem_filter hmemfil, ?_, ?_⟩
      · have := List.of_mem_filter hmemfil
        simpa using this
      · intro g hg hgpos
        have hgfil : g ∈ fees.filter (fun f => decide (0 < nva f)) :=
          List.mem_filter.mpr ⟨hg, by simpa using hgpos⟩
        rw [hfil] at hgfil
        rw [hfee]
        exact le_first_argmax nva v vs g hgfil

/-- Claim C7: for every loan input, assisted bank profile, baseline net
profit and bank category, the optimal-fee search over the swept range
produces no recommendation when no swept fee has strictly positive net
value addition, and any recommended fee is a swept fee of strictly
positive net value addition maximizing the net value addition among the
viable swept fees. -/
theorem optimal_fee_policy (loan_amount interest_rate npa_rate : ℚ)
    (bank_params_fp : BankParams) (baseline_net_profit : ℚ)
    (bank_type : BankType) :
    ((∀ fee ∈ price_range bank_type,
        net_value_addition loan_amount interest_rate npa_rate bank_params_fp
          baseline_net_profit fee ≤ 0) →
      select_optimal_fee (price_range bank_type)
        (net_value_addition loan_amount interest_rate npa_rate bank_params_fp
          baseline_net_profit) = none) ∧
    (∀ fee, select_optimal_fee (price_range bank_type)
        (net_value_addition loan_amount interest_rate npa_rate bank_params_fp
          baseline_net_profit) = some fee →
      fee ∈ price_range bank_type ∧
      0 < net_value_addition loan_amount interest_rate npa_rate bank_params_fp
        baseline_net_profit fee ∧
      ∀ g ∈ price_range bank_type,
        0 < net_value_addition loan_amount interest_rate npa_rate bank_params_fp
          baseline_net_profit g →
        net_value_addition loan_amount interest_rate npa_rate bank_params_fp
          baseline_net_profit g ≤
        net_value_addition loan_amount interest_rate npa_rate bank_params_fp
          baseline_net_profit fee) :=
  ⟨select_optimal_fee_eq_none _ _,
   fun fee h => select_optimal_fee_spec _ _ fee h⟩

/-- Claim C7 witness: with the reference Scheduled-Commercial inputs, an
inflated baseline makes every swept fee non-viable and the search returns
none; with the true baseline 2950 the search recommends fee 600, which is
viable and maximizes the net value addition. -/
theorem optimal_fee_policy_witness :
    select_optimal_fee (price_range .scheduledCommercial)
      (net_value_addition 120000 7 14.16
        (get_bank_parameters .scheduledCommercial 14.16 true) 1000000) = none ∧
    ((600 : ℚ) ∈ price_range .scheduledCommercial ∧
      0 < net_value_addition 120000 7 14.16
        (get_bank_parameters .scheduledCommercial 14.16 true) 2950 600 ∧
      ∀ g ∈ price_range .scheduledCommercial,
        0 < net_value_addition 120000 7 14.16
          (get_bank_parameters .scheduledCommercial 14.16 true) 2950 g →
        net_value_addition 120000 7 14.16
          (get_bank_parameters .scheduledCommercial 14.16 true) 2950 g ≤
        net_value_addition 120000 7 14.16
          (get_bank_parameters .scheduledCommercial 14.16 true) 2950 600) := by
  constructor
  · refine (optimal_fee_policy 120000 7 14.16 _ 1000000 .scheduledCommercial).1 ?_
    intro fee hfee
    fin_cases hfee <;>
      norm_num [net_value_addition, calculate_metrics, get_bank_parameters]
  · refine (optimal_fee_policy 120000 7 14.16 _ 2950 .scheduledCommercial).2 600 ?_
    norm_num [select_optimal_fee, price_range, net_value_addition,
      calculate_metrics, get_bank_parameters, first_argmax]

/-- When the net value addition is strictly antitone, a recommended fee is
the first (smallest) swept fee of an ascending sweep. -/
lemma select_head_of_strict_anti (fees : List ℚ) (nva : ℚ → ℚ)
    (hsorted : fees.Sorted (· < ·))
    (hanti : ∀ a b : ℚ, a < b → nva b < nva a) (fee : ℚ)
    (h : select_optimal_fee fees nva = some fee) : fees.head? = some fee := by
  cases fees with
  | nil => exact nomatch h
  | cons x rest =>
      obtain ⟨hmem, hpos, _⟩ := select_optimal_fee_spec _ _ fee h
      have hxlt : ∀ y ∈ rest, x < y := List.rel_of_sorted_cons hsorted
      have hxpos : 0 < nva x := by
        rcases List.mem_cons.mp hmem with h1 | h1
        · rw [← h1]; exact hpos
        · exact lt_trans hpos (hanti x fee (hxlt fee h1))
      have hfil : (x :: rest).filter (fun f => decide (0 < nva f)) =
          x :: rest.filter (fun f => decide (0 < nva f)) :=
        List.filter_cons_of_pos (by simpa using hxpos)
      have hfa : first_argmax nva x
          (rest.filter (fun f => decide (0 < nva f))) = x := by
        apply first_argmax_of_le
        intro y hy
        exact le_of_lt (hanti x y (hxlt y (List.mem_of_mem_filter hy)))
      have hsel : select_optimal_fee (x :: rest) nva = some x := by
        unfold select_optimal_fee
        rw [hfil]
        exact congrArg some hfa
      rw [hsel] at h
      rw [List.head?_cons, Option.some_inj.mp h]

/-- Claim C9: for every fixed loan input and bank profile, the net profit
of calculate_metrics is an exact affine function of the platform fee
(net_profit(fee) = net_profit(0) - fee), hence the sweep's net value
addition strictly decreases in the fee, and any recommended fee of the
(ascending) swept range is its smallest element. -/
theorem net_profit_affine_in_fee (loan_amount interest_rate npa_rate : ℚ)
    (bank_params : BankParams) (baseline_net_profit : ℚ) :
    (∀ fee : ℚ,
      (calculate_metrics loan_amount interest_rate npa_rate bank_params
        fee).net_profit =
      (calculate_metrics loan_amount interest_rate npa_rate bank_params
        0).net_profit - fee) ∧
    (∀ fee1 fee2 : ℚ, fee1 < fee2 →
      net_value_addition loan_amount interest_rate npa_rate bank_params
        baseline_net_profit fee2 <
      net_value_addition loan_amount interest_rate npa_rate bank_params
        baseline_net_profit fee1) ∧
    (∀ (bank_type : BankType) (fee : ℚ),
      select_optimal_fee (price_range bank_type)
        (net_value_addition loan_amount interest_rate npa_rate bank_params
          baseline_net_profit) = some fee →
      (price_range bank_type).head? = some fee) := by
  have haff : ∀ fee : ℚ,
      (calculate_metrics loan_amount interest_rate npa_rate bank_params
        fee).net_profit =
      (calculate_metrics loan_amount interest_rate npa_rate bank_params
        0).net_profit - fee := by
    intro fee
    simp only [calculate_metrics]
    ring
  have hanti : ∀ a b : ℚ, a < b →
      net_value_addition loan_amount interest_rate npa_rate bank_params
        baseline_net_profit b <
      net_value_addition loan_amount interest_rate npa_rate bank_params
        baseline_net_profit a := by
    intro a b hab
    simp only [net_value_addition, haff a, haff b]
    linarith
  refine ⟨haff, hanti, ?_⟩
  intro bank_type fee h
  refine select_head_of_strict_anti _ _ ?_ hanti fee h
  cases bank_type <;>
    simp [price_range, List.Sorted, List.pairwise_cons] <;> norm_num

/-- Claim C9 witness: at the reference Scheduled-Commercial inputs with
baseline 2950, the recommended fee equals the smallest swept fee, 600. -/
theorem net_profit_affine_in_fee_witness :
    (price_range .scheduledCommercial).head? = some 600 :=
  (net_profit_affine_in_fee 120000 7 14.16
    (get_bank_parameters .scheduledCommercial 14.16 true) 2950).2.2
    .scheduledCommercial 600
    (by norm_num [select_optimal_fee, price_range, net_value_addition,
      calculate_metrics, get_bank_parameters, first_argmax])

/-- Claim C10: in the unassisted case, for every bank category, positive
loan amount, non-negative interest rate and fee, the composed net profit
strictly decreases as the NPA rate increases over [0, 30]: interest income
and government subvention are non-increasing while NPA provisioning is
strictly increasing. -/
theorem net_profit_strictly_decreasing_in_npa (bank_type : BankType)
    (loan_amount interest_rate fee npa1 npa2 : ℚ) (h0 : 0 ≤ npa1)
    (h12 : npa1 < npa2) (h30 : npa2 ≤ 30) (hL : 0 < loan_amount)
    (hir : 0 ≤ interest_rate) :
    (calculate_metrics loan_amount interest_rate npa2
      (get_bank_parameters bank_type npa2 false) fee).net_profit <
    (calculate_metrics loan_amount interest_rate npa1
      (get_bank_parameters bank_type npa1 false) fee).net_profit ∧
    (calculate_metrics loan_amount interest_rate npa2
      (get_bank_parameters bank_type npa2 false) fee).interest_income ≤
    (calculate_metrics loan_amount interest_rate npa1
      (get_bank_parameters bank_type npa1 false) fee).interest_income ∧
    (calculate_metrics loan_amount interest_rate npa2
      (get_bank_parameters bank_type npa2 false) fee).govt_subvention ≤
    (calculate_metrics loan_amount interest_rate npa1
      (get_bank_parameters bank_type npa1 false) fee).govt_subvention ∧
    (calculate_metrics loan_amount interest_rate npa1
      (get_bank_parameters bank_type npa1 false) fee).npa_provisioning <
    (calculate_metrics loan_amount interest_rate npa2
      (get_bank_parameters bank_type npa2 false) fee).npa_provisioning := by
  have heff1 : (get_bank_parameters bank_type npa1 false).effective_npa = npa1 := by
    cases bank_type <;> rfl
  have heff2 : (get_bank_parameters bank_type npa2 false).effective_npa = npa2 := by
    cases bank_type <;> rfl
  have hop : (get_bank_parameters bank_type npa2 false).operational_costs =
      (get_bank_parameters bank_type npa1 false).operational_costs := by
    cases bank_type <;> rfl
  have horv : (get_bank_parameters bank_type npa2 false).other_revenue =
      (get_bank_parameters bank_type npa1 false).other_revenue := by
    cases bank_type <;> rfl
  have hce : (get_bank_parameters bank_type npa2 false).collection_efficiency ≤
      (get_bank_parameters bank_type npa1 false).collection_efficiency := by
    cases bank_type <;> simp only [get_bank_parameters] <;>
      rw [div_le_div_iff_of_pos_right (by norm_num : (0:ℚ) < 100)] <;>
      exact max_le (le_max_left _ _) (le_max_of_le_right (by linarith))
  have hrr : (get_bank_parameters bank_type npa2 false).recovery_rate ≤
      (get_bank_parameters bank_type npa1 false).recovery_rate := by
    cases bank_type <;> simp only [get_bank_parameters] <;>
      rw [div_le_div_iff_of_pos_right (by norm_num : (0:ℚ) < 100)] <;>
      exact max_le (le_max_left _ _) (le_max_of_le_right (by linarith))
  have hii : (calculate_metrics loan_amount interest_rate npa2
      (get_bank_parameters bank_type npa2 false) fee).interest_income ≤
      (calculate_metrics loan_amount interest_rate npa1
        (get_bank_parameters bank_type npa1 false) fee).interest_income := by
    simp only [calculate_metrics]
    exact mul_le_mul_of_nonneg_left hce (by positivity)
  have hgs : (calculate_metrics loan_amount interest_rate npa2
      (get_bank_parameters bank_type npa2 false) fee).govt_subvention ≤
      (calculate_metrics loan_amount interest_rate npa1
        (get_bank_parameters bank_type npa1 false) fee).govt_subvention := by
    simp only [calculate_metrics]
    exact mul_le_mul_of_nonneg_left hrr (by positivity)
  have hprov : (calculate_metrics loan_amount interest_rate npa1
      (get_bank_parameters bank_type npa1 false) fee).npa_provisioning <
      (calculate_metrics loan_amount interest_rate npa2
        (get_bank_parameters bank_type npa2 false) fee).npa_provisioning := by
    simp only [calculate_metrics, heff1, heff2]
    nlinarith [mul_pos (sub_pos.mpr h12) hL]
  refine ⟨?_, hii, hgs, hprov⟩
  have hnet2 : (calculate_metrics loan_amount interest_rate npa2
      (get_bank_parameters bank_type npa2 false) fee).net_profit =
      (calculate_metrics loan_amount interest_rate npa2
        (get_bank_parameters bank_type npa2 false) fee).interest_income +
      (calculate_metrics loan_amount interest_rate npa2
        (get_bank_parameters bank_type npa2 false) fee).govt_subvention +
      (get_bank_parameters bank_type npa2 false).other_revenue -
      ((get_bank_parameters bank_type npa2 false).operational_costs +
      (calculate_metrics loan_amount interest_rate npa2
        (get_bank_parameters bank_type npa2 false) fee).npa_provisioning +
      fee) := rfl
  have hnet1 : (calculate_metrics loan_amount interest_rate npa1
      (get_bank_parameters bank_type npa1 false) fee).net_profit =
      (calculate_metrics loan_amount interest_rate npa1
        (get_bank_parameters bank_type npa1 false) fee).interest_income +
      (calculate_metrics loan_amount interest_rate npa1
        (get_bank_parameters bank_type npa1 false) fee).govt_subvention +
      (get_bank_parameters bank_type npa1 false).other_revenue -
      ((get_bank_parameters bank_type npa1 false).operational_costs +
      (calculate_metrics loan_amount interest_rate npa1
        (get_bank_parameters bank_type npa1 false) fee).npa_provisioning +
      fee) := rfl
  rw [hnet1, hnet2, hop, horv]
  linarith [hii, hgs, hprov]

/-- Claim C10 witness: Scheduled-Commercial, loan 120000, rate 7, fee 0,
NPA moving from 10 to 20: net profit strictly falls, interest income and
subvention do not rise, provisioning strictly rises. -/
theorem net_profit_strictly_decreasing_in_npa_witness :
    (calculate_metrics 120000 7 20
      (get_bank_parameters .scheduledCommercial 20 false) 0).net_profit <
    (calculate_metrics 120000 7 10
      (get_bank_parameters .scheduledCommercial 10 false) 0).net_profit ∧
    (calculate_metrics 120000 7 20
      (get_bank_parameters .scheduledCommercial 20 false) 0).interest_income ≤
    (calculate_metrics 120000 7 10
      (get_bank_parameters .scheduledCommercial 10 false) 0).interest_income ∧
    (calculate_metrics 120000 7 20
      (get_bank_parameters .scheduledCommercial 20 false) 0).govt_subvention ≤
    (calculate_metrics 120000 7 10
      (get_bank_parameters .scheduledCommercial 10 false) 0).govt_subvention ∧
    (calculate_metrics 120000 7 10
      (get_bank_parameters .scheduledCommercial 10 false) 0).npa_provisioning <
    (calculate_metrics 120000 7 20
      (get_bank_parameters .scheduledCommercial 20 false) 0).npa_provisioning :=
  net_profit_strictly_decreasing_in_npa .scheduledCommercial 120000 7 0 10 20
    (by norm_num) (by norm_num) (by norm_num) (by norm_num) (by norm_num)

end FarmerPay
